import Mathlib

/-!
Shallow embedding of `src/components/CameraCapture.tsx` (the cameraAI
repository): the camera-acquisition fallback loop (`startCamera`), the
release operation (`stopCamera` / `stopTracks`), and the capture path
(`captureAndAnalyze`), together with the spec-level `FailureKind`
classification of acquisition failures.

Conventions of the embedding:
* Browser state that the component merely reads (availability of the media
  API, `location.protocol` / `location.hostname`, whether the `video` /
  `canvas` refs are attached, whether `video.play()` resolves, whether a 2d
  canvas context exists, the outcome of each `getUserMedia` call and of the
  analysis request) is collected in an `Env` record; each call of an
  operation is evaluated against one such environment.
* React `useState` cells (`isStreaming`, `analyzing`, `error`) and the
  mutable `videoRef.current.srcObject` attachment become fields of
  `CompState`.  `srcObject` models `videoRef.current?.srcObject ?? null`
  (it is `none` when the video element is absent, since a detached element
  cannot hold the attachment), so the source guard
  `videoRef.current && videoRef.current.srcObject` is `srcObject.isSome`.
* Streams are identified by a numeric id.  `openedIds` / `stoppedIds` are
  ghost fields recording which streams have ever been produced by a
  successful `getUserMedia` and which had `track.stop()` called on all
  their tracks (`stopTracks`); a handle is *live* when opened and not
  stopped.  They never influence control flow.
* All operations are total Lean functions: no modelled path throws an
  uncaught exception, matching the source where every failure is caught
  and converted into an error message.
-/

namespace CameraAI

/-- A JavaScript error value as observed by the source: only its `name`
(compared against literals such as `'NotAllowedError'`) and its `message`
are ever inspected. -/
structure JsError where
  name : String
  message : String
deriving DecidableEq

/-- The error synthesized at line 63 of the source,
`new Error("No camera devices found.")`; a plain `Error` has name
`"Error"`. -/
def noDevicesError : JsError :=
  { name := "Error", message := "No camera devices found." }

/-- An opaque handle to a `MediaStream`, identified by a stream id. -/
structure MediaStream where
  id : Nat
deriving DecidableEq

/-- The `facingMode` preference of a video constraint. -/
inductive FacingMode
  | environment
  | user
deriving DecidableEq

/-- The `video` part of a `getUserMedia` constraints object as used by the
source: either `{ facingMode: ... }` or `true` (any device). -/
inductive VideoConstraint
  | facing (m : FacingMode)
  | anyDevice
deriving DecidableEq

/-- One constraints object of the strategy list (lines 39-46). -/
structure Constraints where
  video : VideoConstraint
  audio : Bool
deriving DecidableEq

/-- The hard-coded strategy list of the source: back camera, then front
camera, then any video device, always with `audio: false`. -/
def defaultStrategies : List Constraints :=
  [ { video := .facing .environment, audio := false },
    { video := .facing .user, audio := false },
    { video := .anyDevice, audio := false } ]

/-- Result of one `navigator.mediaDevices.getUserMedia(constraints)` call:
a stream, or a thrown error. -/
inductive GUMResult
  | ok (stream : MediaStream)
  | err (e : JsError)
deriving DecidableEq

/-- Outcome of the `analyzeImageWithGemini` call as seen by the `catch` in
`captureAndAnalyze`: a response text, a thrown `Error` instance (whose
`message` is used), or a thrown non-`Error` value. -/
inductive AnalyzeOutcome
  | ok (text : String)
  | errorThrown (message : String)
  | nonErrorThrown
deriving DecidableEq

/-- The browser environment a single operation call runs against. -/
structure Env where
  /-- `navigator.mediaDevices` is non-null. -/
  mediaDevicesPresent : Bool
  /-- `navigator.mediaDevices.getUserMedia` is defined. -/
  getUserMediaPresent : Bool
  /-- Outcome of `getUserMedia` for each constraints object. -/
  getUserMedia : Constraints → GUMResult
  /-- `videoRef.current` is non-null. -/
  videoPresent : Bool
  /-- `canvasRef.current` is non-null. -/
  canvasPresent : Bool
  /-- The `video.play()` promise inside `onloadedmetadata` resolves. -/
  playbackOk : Bool
  /-- `canvas.getContext('2d')` returns a context. -/
  ctx2d : Bool
  /-- `location.protocol`. -/
  protocol : String
  /-- `location.hostname`. -/
  hostname : String
  /-- `canvas.toDataURL('image/jpeg', 0.8)` for the drawn frame. -/
  frameData : String
  /-- Outcome of the analysis request for the captured frame. -/
  analyze : AnalyzeOutcome
  /-- `crypto.randomUUID()`. -/
  freshId : String
  /-- `new Date().toISOString()`. -/
  nowISO : String

/-- Component state: the three `useState` cells, the stream attached to the
video element, and the ghost bookkeeping of opened / stopped streams. -/
structure CompState where
  /-- `videoRef.current?.srcObject ?? null`. -/
  srcObject : Option MediaStream
  /-- the `isStreaming` state cell. -/
  isStreaming : Bool
  /-- the `analyzing` state cell. -/
  analyzing : Bool
  /-- the `error` state cell. -/
  error : Option String
  /-- ghost: ids of streams ever returned by a successful `getUserMedia`. -/
  openedIds : List Nat
  /-- ghost: ids of streams whose tracks have all been stopped. -/
  stoppedIds : List Nat
deriving DecidableEq

/-- A handle is live in a state when it has been opened and its tracks have
not been stopped. -/
def CompState.live (s : CompState) (h : MediaStream) : Prop :=
  h.id ∈ s.openedIds ∧ h.id ∉ s.stoppedIds

instance (s : CompState) (h : MediaStream) : Decidable (s.live h) := by
  unfold CompState.live; infer_instance

/-- The spec-level classification of acquisition failures. -/
inductive FailureKind
  | Unsupported
  | PermissionDenied
  | DeviceNotFound
  | DeviceBusy
  | ConstraintsUnsatisfiable
  | InsecureContext
  | Unknown
deriving DecidableEq

/-- The classification chain of lines 86-98 of the source, applied to the
error thrown out of the acquisition `try` block: the four `err.name`
checks in order, then the insecure-page check, then the default.  Only the
last two branches consult the page environment. -/
def classify (env : Env) (e : JsError) : FailureKind :=
  if e.name = "NotAllowedError" ∨ e.name = "PermissionDeniedError" then
    .PermissionDenied
  else if e.name = "NotFoundError" ∨ e.name = "DevicesNotFoundError" then
    .DeviceNotFound
  else if e.name = "NotReadableError" ∨ e.name = "TrackStartError" then
    .DeviceBusy
  else if e.name = "OverconstrainedError" then
    .ConstraintsUnsatisfiable
  else if ¬(env.protocol = "https:") ∧ ¬(env.hostname = "localhost") then
    .InsecureContext
  else
    .Unknown

/-- The user-facing message the source assigns to each failure kind
(lines 30, 86-98). -/
def failureMessage : FailureKind → String
  | .Unsupported =>
      "Camera API not supported. Please use a modern browser and ensure you are on HTTPS."
  | .PermissionDenied =>
      "Camera permission denied. Please reset permissions for this site in your browser settings."
  | .DeviceNotFound =>
      "No camera device found on this device."
  | .DeviceBusy =>
      "Camera is currently in use by another application. Please close other apps and try again."
  | .ConstraintsUnsatisfiable =>
      "Camera constraints could not be satisfied."
  | .InsecureContext =>
      "Camera access requires a secure HTTPS connection."
  | .Unknown =>
      "Unable to access camera."

/-- The message set on playback-confirmation failure (line 76), distinct
from the classification table. -/
def playbackFailedMessage : String :=
  "Camera permission granted, but video preview failed to start."

/-- Spec-level outcome of one `acquire` (`startCamera`) run. -/
inductive AcquisitionOutcome
  | Active (handle : MediaStream)
  | PlaybackFailed (handle : MediaStream)
  | NoSurface (handle : MediaStream)
  | Failed (kind : FailureKind)
deriving DecidableEq

/-- Result of the strategy loop of lines 48-59: the stream found (if any),
the last recorded error, and the constraints actually attempted, in
order. -/
structure LoopResult where
  stream : Option MediaStream
  lastError : Option JsError
  attempts : List Constraints
deriving DecidableEq

/-- The `for (const constraints of strategies)` loop of lines 48-59: each
attempt calls `getUserMedia`; a success breaks out of the loop, a failure
records the error in `lastError` and continues. -/
def tryStrategies (env : Env) : List Constraints → Option JsError → LoopResult
  | [], lastError => { stream := none, lastError := lastError, attempts := [] }
  | c :: rest, lastError =>
    match env.getUserMedia c with
    | .ok st => { stream := some st, lastError := lastError, attempts := [c] }
    | .err e =>
      let r := tryStrategies env rest (some e)
      { stream := r.stream, lastError := r.lastError, attempts := c :: r.attempts }

/-- Result of one `startCamera` run: the new component state, the
constraints attempted, and the spec-level outcome. -/
structure AcquireResult where
  state : CompState
  attempts : List Constraints
  outcome : AcquisitionOutcome
deriving DecidableEq

/-- The `startCamera` callback (lines 24-102), parametrised by the strategy
list as in the spec signature `acquire(strategies)`.

Control flow of the source: reset `isStreaming` and `error`; bail out with
the unsupported message when the media API is missing (lines 29-32); run
the strategy loop; with no stream, throw `lastError` (or the synthesized
no-devices error) into the `catch`, which classifies it into a message;
with a stream and an attached video element, set `srcObject` and confirm
playback inside `onloadedmetadata` — `isStreaming` becomes true only when
`play()` resolves, otherwise the distinct playback-failure message is set;
with a stream but no video element, the stream is stopped immediately
(lines 79-82).  The previously attached `srcObject` is never stopped by
this function. -/
def startCamera (env : Env) (strategies : List Constraints) (s : CompState) :
    AcquireResult :=
  let s0 : CompState := { s with isStreaming := false, error := none }
  if ¬env.mediaDevicesPresent ∨ ¬env.getUserMediaPresent then
    { state := { s0 with error := some (failureMessage .Unsupported) },
      attempts := [],
      outcome := .Failed .Unsupported }
  else
    let r := tryStrategies env strategies none
    match r.stream with
    | some stream =>
      let s1 : CompState := { s0 with openedIds := stream.id :: s0.openedIds }
      if env.videoPresent then
        if env.playbackOk then
          { state := { s1 with srcObject := some stream, isStreaming := true },
            attempts := r.attempts,
            outcome := .Active stream }
        else
          { state := { s1 with srcObject := some stream,
                               error := some playbackFailedMessage },
            attempts := r.attempts,
            outcome := .PlaybackFailed stream }
      else
        { state := { s1 with stoppedIds := stream.id :: s1.stoppedIds },
          attempts := r.attempts,
          outcome := .NoSurface stream }
    | none =>
      let e := r.lastError.getD noDevicesError
      let k := classify env e
      { state := { s0 with error := some (failureMessage k) },
        attempts := r.attempts,
        outcome := .Failed k }

/-- `stopTracks` (lines 17-22): stop every track of the given stream; a
null stream is a no-op.  In the ghost model this records the stream id as
stopped. -/
def stopTracks (stream : Option MediaStream) (stopped : List Nat) : List Nat :=
  match stream with
  | some st => st.id :: stopped
  | none => stopped

/-- `stopCamera` (lines 104-111): when a stream is attached, stop its
tracks, clear `srcObject` and reset `isStreaming`; otherwise do nothing
(in particular, `isStreaming` is not touched on the no-op path). -/
def stopCamera (s : CompState) : CompState :=
  match s.srcObject with
  | some stream =>
    { s with stoppedIds := stopTracks (some stream) s.stoppedIds,
             srcObject := none,
             isStreaming := false }
  | none => s

/-- The analysis-result record built on a successful analysis
(lines 156-161). -/
structure AnalysisResult where
  id : String
  timestamp : String
  imageData : String
  description : String
deriving DecidableEq

/-- Result of one `captureAndAnalyze` run: the new component state, the
sequence of values written to the `analyzing` flag during the run, whether
the analysis service was called, and the result delivered to
`onAnalysisComplete` (if any). -/
structure CaptureResult where
  state : CompState
  analyzingWrites : List Bool
  analysisCalled : Bool
  delivered : Option AnalysisResult
deriving DecidableEq

/-- The `captureAndAnalyze` callback (lines 138-170).  With either ref
absent it returns before touching any state.  Otherwise `analyzing` is set
true, then the 2d context is requested: with a context, the frame is drawn
and analyzed, a success delivers the result, a failure sets the error
message, and the `finally` resets `analyzing`; with no context the
function falls off the end of the `if` and `analyzing` is never reset. -/
def captureAndAnalyze (env : Env) (s : CompState) : CaptureResult :=
  if ¬env.videoPresent ∨ ¬env.canvasPresent then
    { state := s, analyzingWrites := [], analysisCalled := false, delivered := none }
  else
    let s1 : CompState := { s with analyzing := true }
    if env.ctx2d then
      match env.analyze with
      | .ok text =>
        { state := { s1 with analyzing := false },
          analyzingWrites := [true, false],
          analysisCalled := true,
          delivered := some { id := env.freshId, timestamp := env.nowISO,
                              imageData := env.frameData, description := text } }
      | .errorThrown message =>
        { state := { s1 with analyzing := false, error := some message },
          analyzingWrites := [true, false],
          analysisCalled := true,
          delivered := none }
      | .nonErrorThrown =>
        { state := { s1 with analyzing := false, error := some "Analysis failed" },
          analyzingWrites := [true, false],
          analysisCalled := true,
          delivered := none }
    else
      { state := s1, analyzingWrites := [true], analysisCalled := false,
        delivered := none }

/-- The capture button is disabled exactly when `!isStreaming || analyzing`
(line 228 of the source). -/
def captureDisabled (s : CompState) : Bool :=
  !s.isStreaming || s.analyzing

/-- The Idle shape of the spec: streaming flag false and no attached
stream. -/
def CompState.Idle (s : CompState) : Prop :=
  s.isStreaming = false ∧ s.srcObject = none

/-- The error names consulted by the four `err.name` checks of the
classification chain. -/
def tableNames : List String :=
  [ "NotAllowedError", "PermissionDeniedError",
    "NotFoundError", "DevicesNotFoundError",
    "NotReadableError", "TrackStartError",
    "OverconstrainedError" ]

/-- The message `captureAndAnalyze` would set for a given analysis
outcome: the thrown `message` for an `Error` instance, the literal
`"Analysis failed"` for a non-`Error` value, nothing on success
(line 165 of the source). -/
def errMessageOf : AnalyzeOutcome → Option String
  | .ok _ => none
  | .errorThrown message => some message
  | .nonErrorThrown => some "Analysis failed"

/-- A concrete healthy browser environment used for witnesses: secure
page, all refs attached, playback and analysis succeed; `getUserMedia`
fails with `NotFoundError` unless overridden. -/
def baseEnv : Env where
  mediaDevicesPresent := true
  getUserMediaPresent := true
  getUserMedia := fun _ => .err { name := "NotFoundError", message := "no device" }
  videoPresent := true
  canvasPresent := true
  playbackOk := true
  ctx2d := true
  protocol := "https:"
  hostname := "app.example.com"
  frameData := "data:image/jpeg;base64,abcd"
  analyze := .ok "a desk with a laptop"
  freshId := "uuid-1"
  nowISO := "2026-10-11T00:00:00.000Z"

/-- The component state at mount: nothing attached, all flags down. -/
def initState : CompState where
  srcObject := none
  isStreaming := false
  analyzing := false
  error := none
  openedIds := []
  stoppedIds := []

/-- A state in which stream 0 is attached and live (reached after a
successful acquisition whose playback confirmed). -/
def streamingState : CompState where
  srcObject := some { id := 0 }
  isStreaming := true
  analyzing := false
  error := none
  openedIds := [0]
  stoppedIds := []

/-- An environment in which every strategy fails with the browser's
permission-denied error. -/
def permEnv : Env :=
  { baseEnv with
    getUserMedia := fun _ =>
      .err { name := "NotAllowedError", message := "Permission denied" } }

/-- An environment in which the rear-camera strategy fails but any other
strategy opens stream 7. -/
def mixedEnv : Env :=
  { baseEnv with
    getUserMedia := fun c =>
      match c.video with
      | .facing .environment =>
        .err { name := "OverconstrainedError", message := "no rear camera" }
      | _ => .ok { id := 7 } }

/-- An environment in which every strategy opens the fresh stream 1. -/
def freshStreamEnv : Env :=
  { baseEnv with getUserMedia := fun _ => .ok { id := 1 } }

/-- An environment on an insecure non-local page where the media API is
present. -/
def insecureEnv : Env :=
  { baseEnv with protocol := "http:", hostname := "192.168.1.5" }

/-- An environment in which every strategy opens stream 2 but the
`video.play()` promise rejects. -/
def playFailEnv : Env :=
  { baseEnv with getUserMedia := fun _ => .ok { id := 2 }, playbackOk := false }

/-! ## Lemmas about the strategy loop -/

/-- When every strategy in the list fails, the loop produces no stream,
attempts the whole list, and its recorded last error is the error of the
last strategy (or the incoming accumulator for the empty list). -/
theorem tryStrategies_all_fail (env : Env) :
    ∀ (cs : List Constraints) (acc : Option JsError),
      (∀ c ∈ cs, ∃ e, env.getUserMedia c = .err e) →
      (tryStrategies env cs acc).stream = none ∧
      (tryStrategies env cs acc).attempts = cs ∧
      ((cs = [] → (tryStrategies env cs acc).lastError = acc) ∧
        ∀ c e, cs.getLast? = some c → env.getUserMedia c = .err e →
          (tryStrategies env cs acc).lastError = some e) := by
  intro cs
  induction cs with
  | nil =>
    intro acc _
    refine ⟨rfl, rfl, fun _ => rfl, ?_⟩
    intro c e hlast
    simp at hlast
  | cons c rest ih =>
    intro acc hfail
    obtain ⟨e0, he0⟩ := hfail c (List.mem_cons_self c rest)
    have hrest : ∀ c' ∈ rest, ∃ e, env.getUserMedia c' = .err e :=
      fun c' hc' => hfail c' (List.mem_cons_of_mem c hc')
    have ihr := ih (some e0) hrest
    refine ⟨?_, ?_, ?_, ?_⟩
    · simp [tryStrategies, he0, ihr.1]
    · simp [tryStrategies, he0, ihr.2.1]
    · intro h; exact absurd h (List.cons_ne_nil c rest)
    · intro c' e' hlast he'
      cases rest with
      | nil =>
        simp at hlast
        subst hlast
        rw [he0] at he'
        cases he'
        simp [tryStrategies, he0]
      | cons r rs =>
        have hlast' : (r :: rs).getLast? = some c' := by
          simpa [List.getLast?_cons_cons] using hlast
        have := (ih (some e0) hrest).2.2.2 c' e' hlast' he'
        simp [tryStrategies, he0]
        exact this

/-- When every strategy of a prefix fails and the next strategy succeeds,
the loop stops there: it returns that stream and attempts exactly the
failing prefix followed by the successful strategy, never touching the
rest of the list. -/
theorem tryStrategies_first_success (env : Env) (st : MediaStream) :
    ∀ (pre : List Constraints) (c : Constraints) (post : List Constraints)
      (acc : Option JsError),
      (∀ c' ∈ pre, ∃ e, env.getUserMedia c' = .err e) →
      env.getUserMedia c = .ok st →
      (tryStrategies env (pre ++ c :: post) acc).stream = some st ∧
      (tryStrategies env (pre ++ c :: post) acc).attempts = pre ++ [c] := by
  intro pre
  induction pre with
  | nil =>
    intro c post acc _ hok
    simp [tryStrategies, hok]
  | cons p ps ih =>
    intro c post acc hfail hok
    obtain ⟨e0, he0⟩ := hfail p (List.mem_cons_self p ps)
    have hps : ∀ c' ∈ ps, ∃ e, env.getUserMedia c' = .err e :=
      fun c' hc' => hfail c' (List.mem_cons_of_mem p hc')
    have := ih c post (some e0) hps hok
    simp [tryStrategies, he0, this.1, this.2]

/-! ## General shape lemmas about `startCamera` -/

/-- `startCamera` never touches the `analyzing` cell. -/
theorem startCamera_analyzing (env : Env) (strategies : List Constraints)
    (s : CompState) :
    (startCamera env strategies s).state.analyzing = s.analyzing := by
  unfold startCamera
  split
  · rfl
  · cases h : (tryStrategies env strategies none).stream with
    | none => simp [h]
    | some st => simp [h]; split_ifs <;> rfl

/-- The result of `startCamera` reports `isStreaming` only on the `Active`
branch: a true streaming flag forces a confirmed playback and an `Active`
outcome. -/
theorem startCamera_streaming_active (env : Env) (strategies : List Constraints)
    (s : CompState)
    (h : (startCamera env strategies s).state.isStreaming = true) :
    env.playbackOk = true ∧
    ∃ st, (startCamera env strategies s).outcome = .Active st := by
  cases hm : env.mediaDevicesPresent with
  | false => simp [startCamera, hm] at h
  | true =>
    cases hg : env.getUserMediaPresent with
    | false => simp [startCamera, hm, hg] at h
    | true =>
      cases hst : (tryStrategies env strategies none).stream with
      | none => simp [startCamera, hm, hg, hst] at h
      | some st =>
        cases hv : env.videoPresent with
        | false => simp [startCamera, hm, hg, hst, hv] at h
        | true =>
          cases hp : env.playbackOk with
          | false => simp [startCamera, hm, hg, hst, hv, hp] at h
          | true =>
            exact ⟨rfl, st, by simp [startCamera, hm, hg, hst, hv, hp]⟩

/-! ## Claim theorems -/

/-- Claim C4: if the platform capability check fails (the camera API is
unavailable), `acquire` returns `Failed(Unsupported)` immediately, with
its message, and attempts zero strategies. -/
theorem claim4_unsupported_no_attempts (env : Env) (strategies : List Constraints)
    (s : CompState)
    (h : env.mediaDevicesPresent = false ∨ env.getUserMediaPresent = false) :
    (startCamera env strategies s).outcome = .Failed .Unsupported ∧
    (startCamera env strategies s).attempts = [] ∧
    (startCamera env strategies s).state.error =
      some (failureMessage .Unsupported) := by
  rcases h with h | h <;> simp [startCamera, h]

/-- Witness for C4 at a concrete environment with `navigator.mediaDevices`
absent. -/
theorem claim4_witness :
    (startCamera { baseEnv with mediaDevicesPresent := false }
        defaultStrategies initState).outcome = .Failed .Unsupported ∧
    (startCamera { baseEnv with mediaDevicesPresent := false }
        defaultStrategies initState).attempts = [] ∧
    (startCamera { baseEnv with mediaDevicesPresent := false }
        defaultStrategies initState).state.error =
      some (failureMessage .Unsupported) :=
  claim4_unsupported_no_attempts _ _ _ (Or.inl rfl)

/-- Claim C2: for a non-empty strategy list in which every attempt fails,
`acquire` returns `Failed` with the kind classified from the error of the
last strategy alone (the conclusion mentions no earlier error). -/
theorem claim2_all_fail_last_error (env : Env) (strategies : List Constraints)
    (s : CompState) (c : Constraints) (e : JsError)
    (hapi1 : env.mediaDevicesPresent = true)
    (hapi2 : env.getUserMediaPresent = true)
    (hfail : ∀ c' ∈ strategies, ∃ e', env.getUserMedia c' = .err e')
    (hlast : strategies.getLast? = some c)
    (he : env.getUserMedia c = .err e) :
    (startCamera env strategies s).outcome = .Failed (classify env e) ∧
    (startCamera env strategies s).state.error =
      some (failureMessage (classify env e)) ∧
    (startCamera env strategies s).attempts = strategies := by
  have h := tryStrategies_all_fail env strategies none hfail
  have hle := h.2.2.2 c e hlast he
  simp [startCamera, hapi1, hapi2, h.1, h.2.1, hle]

/-- Witness for C2: all three default strategies fail with the
permission-denied error, and the outcome is `Failed(PermissionDenied)`. -/
theorem claim2_witness :
    (startCamera permEnv defaultStrategies initState).outcome =
      .Failed .PermissionDenied := by
  have h := claim2_all_fail_last_error permEnv defaultStrategies initState
    { video := .anyDevice, audio := false }
    { name := "NotAllowedError", message := "Permission denied" }
    rfl rfl
    (fun c' _ => ⟨{ name := "NotAllowedError", message := "Permission denied" }, rfl⟩)
    (by decide) rfl
  have hc : classify permEnv
      { name := "NotAllowedError", message := "Permission denied" } =
      FailureKind.PermissionDenied := by decide
  rw [hc] at h
  exact h.1

/-- Claim C3: when the strategies before `c` all fail and `c` succeeds
with stream `st`, `acquire` attempts exactly the failing prefix plus `c`
(no later strategy is attempted) and, with the video surface attached and
playback confirming, produces `Active(st)` with `st` attached. -/
theorem claim3_first_success_stops (env : Env) (s : CompState)
    (pre : List Constraints) (c : Constraints) (post : List Constraints)
    (st : MediaStream)
    (hapi1 : env.mediaDevicesPresent = true)
    (hapi2 : env.getUserMediaPresent = true)
    (hpre : ∀ c' ∈ pre, ∃ e, env.getUserMedia c' = .err e)
    (hok : env.getUserMedia c = .ok st)
    (hvid : env.videoPresent = true)
    (hplay : env.playbackOk = true) :
    (startCamera env (pre ++ c :: post) s).attempts = pre ++ [c] ∧
    (startCamera env (pre ++ c :: post) s).outcome = .Active st ∧
    (startCamera env (pre ++ c :: post) s).state.srcObject = some st := by
  have h := tryStrategies_first_success env st pre c post none hpre hok
  simp [startCamera, hapi1, hapi2, h.1, h.2, hvid, hplay]

/-- Witness for C3: in `mixedEnv` the rear-camera strategy fails and the
front-camera strategy opens stream 7; only those two are attempted and the
any-device strategy is never tried. -/
theorem claim3_witness :
    (startCamera mixedEnv defaultStrategies initState).attempts =
      [ { video := .facing .environment, audio := false },
        { video := .facing .user, audio := false } ] ∧
    (startCamera mixedEnv defaultStrategies initState).outcome =
      .Active { id := 7 } ∧
    (startCamera mixedEnv defaultStrategies initState).state.srcObject =
      some { id := 7 } := by
  have h := claim3_first_success_stops mixedEnv initState
    [ { video := .facing .environment, audio := false } ]
    { video := .facing .user, audio := false }
    [ { video := .anyDevice, audio := false } ]
    { id := 7 } rfl rfl
    (by
      intro c' hc'
      simp at hc'
      subst hc'
      exact ⟨{ name := "OverconstrainedError", message := "no rear camera" }, rfl⟩)
    rfl rfl rfl
  simpa [defaultStrategies] using h

/-- Claim C1 (amended): `startCamera` does not release a previously
attached handle before opening a new one.  When it is invoked in a state
whose attached handle `h` is live, the media API is available, the video
element is attached, and the strategy loop produces a fresh stream `st`,
then after the call both `h` and `st` are live: the old handle's tracks
are never stopped, it is merely superseded by overwriting the
attachment. -/
theorem claim1_no_release_two_live (env : Env) (strategies : List Constraints)
    (s : CompState) (h st : MediaStream)
    (hsrc : s.srcObject = some h)
    (hopen : h.id ∈ s.openedIds) (hlive : h.id ∉ s.stoppedIds)
    (hm : env.mediaDevicesPresent = true)
    (hg : env.getUserMediaPresent = true)
    (hst : (tryStrategies env strategies none).stream = some st)
    (hvid : env.videoPresent = true)
    (hfresh : st.id ∉ s.stoppedIds) :
    (startCamera env strategies s).state.live h ∧
    (startCamera env strategies s).state.live st ∧
    (startCamera env strategies s).state.srcObject = some st := by
  have hsome : s.srcObject.isSome = true := by rw [hsrc]; rfl
  cases hp : env.playbackOk with
  | true =>
    simp [startCamera, hm, hg, hst, hvid, hp, CompState.live, hopen, hlive, hfresh]
  | false =>
    simp [startCamera, hm, hg, hst, hvid, hp, CompState.live, hopen, hlive, hfresh]

/-- Counterexample to C1 as stated: from a state whose attached stream 0
is live, a successful re-acquisition opens stream 1 without stopping
stream 0; afterwards the two distinct handles are live simultaneously and
nothing was released. -/
theorem claim1_counterexample :
    streamingState.srcObject = some { id := 0 } ∧
    streamingState.isStreaming = true ∧
    streamingState.live { id := 0 } ∧
    (startCamera freshStreamEnv defaultStrategies streamingState).state.live
      { id := 0 } ∧
    (startCamera freshStreamEnv defaultStrategies streamingState).state.live
      { id := 1 } ∧
    ({ id := 0 } : MediaStream) ≠ { id := 1 } ∧
    (startCamera freshStreamEnv defaultStrategies streamingState).state.stoppedIds
      = [] := by
  decide

/-- Witness for the amended C1 at the concrete input of the
counterexample. -/
theorem claim1_witness :
    (startCamera freshStreamEnv defaultStrategies streamingState).state.live
      { id := 0 } ∧
    (startCamera freshStreamEnv defaultStrategies streamingState).state.live
      { id := 1 } ∧
    (startCamera freshStreamEnv defaultStrategies streamingState).state.srcObject
      = some { id := 1 } :=
  claim1_no_release_two_live freshStreamEnv defaultStrategies streamingState
    { id := 0 } { id := 1 } rfl (by decide) (by decide) rfl rfl (by decide)
    rfl (by decide)

/-- Claim C5: the failure classification checks the four error-name
conditions in order, reports `InsecureContext` only when none of them
matched and the page transport is insecure and non-local, and reports
`Unknown` for an unmatched error on a secure or local page. -/
theorem claim5_classify_priority (env : Env) (e : JsError) :
    ((e.name = "NotAllowedError" ∨ e.name = "PermissionDeniedError") →
      classify env e = .PermissionDenied) ∧
    ((e.name = "NotFoundError" ∨ e.name = "DevicesNotFoundError") →
      classify env e = .DeviceNotFound) ∧
    ((e.name = "NotReadableError" ∨ e.name = "TrackStartError") →
      classify env e = .DeviceBusy) ∧
    (e.name = "OverconstrainedError" →
      classify env e = .ConstraintsUnsatisfiable) ∧
    (classify env e = .InsecureContext →
      e.name ∉ tableNames ∧
      env.protocol ≠ "https:" ∧ env.hostname ≠ "localhost") ∧
    (e.name ∉ tableNames →
      (env.protocol = "https:" ∨ env.hostname = "localhost") →
      classify env e = .Unknown) := by
  refine ⟨?_, ?_, ?_, ?_, ?_, ?_⟩
  · intro h; rcases h with h | h <;> simp [classify, h]
  · intro h; rcases h with h | h <;> simp [classify, h]
  · intro h; rcases h with h | h <;> simp [classify, h]
  · intro h; simp [classify, h]
  · intro h
    unfold classify at h
    split_ifs at h with h1 h2 h3 h4 h5
    refine ⟨?_, h5.1, h5.2⟩
    push_neg at h1 h2 h3
    simp [tableNames]
    exact ⟨h1.1, h1.2, h2.1, h2.2, h3.1, h3.2, h4⟩
  · intro hn hs
    simp [tableNames] at hn
    obtain ⟨n1, n2, n3, n4, n5, n6, n7⟩ := hn
    unfold classify
    rw [if_neg (by simp [n1, n2]), if_neg (by simp [n3, n4]),
        if_neg (by simp [n5, n6]), if_neg n7,
        if_neg (by rcases hs with hs | hs <;> simp [hs])]

/-- Witness for C5: on an insecure page a permission error still
classifies as `PermissionDenied`, and an unmatched error name on a secure
page classifies as `Unknown`. -/
theorem claim5_witness :
    classify insecureEnv { name := "NotAllowedError", message := "denied" }
      = .PermissionDenied ∧
    classify baseEnv { name := "TypeError", message := "oops" } = .Unknown := by
  refine ⟨?_, ?_⟩
  · exact (claim5_classify_priority insecureEnv
      { name := "NotAllowedError", message := "denied" }).1 (Or.inl rfl)
  · exact (claim5_classify_priority baseEnv
      { name := "TypeError", message := "oops" }).2.2.2.2.2 (by decide) (Or.inl rfl)

/-- Claim C6: when a strategy opens a stream but playback confirmation
fails, the outcome is the distinct `PlaybackFailed` with the
permission-granted-preview-failed message — which coincides with no
message of the classification table — and the streaming flag stays down;
moreover a raised streaming flag always means playback confirmed and an
`Active` outcome. -/
theorem claim6_playback_failure_distinct (env : Env)
    (strategies : List Constraints) (s : CompState) (st : MediaStream)
    (hm : env.mediaDevicesPresent = true)
    (hg : env.getUserMediaPresent = true)
    (hst : (tryStrategies env strategies none).stream = some st)
    (hvid : env.videoPresent = true)
    (hplay : env.playbackOk = false) :
    (startCamera env strategies s).outcome = .PlaybackFailed st ∧
    (startCamera env strategies s).state.error = some playbackFailedMessage ∧
    (startCamera env strategies s).state.isStreaming = false ∧
    (∀ k, playbackFailedMessage ≠ failureMessage k) ∧
    (∀ env' strategies' s',
      (startCamera env' strategies' s').state.isStreaming = true →
        env'.playbackOk = true ∧
        ∃ h, (startCamera env' strategies' s').outcome = .Active h) := by
  refine ⟨?_, ?_, ?_, ?_, ?_⟩
  · simp [startCamera, hm, hg, hst, hvid, hplay]
  · simp [startCamera, hm, hg, hst, hvid, hplay]
  · simp [startCamera, hm, hg, hst, hvid, hplay]
  · intro k; cases k <;> decide
  · intro env' strategies' s' h
    exact startCamera_streaming_active env' strategies' s' h

/-- Witness for C6: all strategies open stream 2 but `play()` rejects. -/
theorem claim6_witness :
    (startCamera playFailEnv defaultStrategies initState).outcome
      = .PlaybackFailed { id := 2 } ∧
    (startCamera playFailEnv defaultStrategies initState).state.error
      = some playbackFailedMessage ∧
    (startCamera playFailEnv defaultStrategies initState).state.isStreaming
      = false := by
  have h := claim6_playback_failure_distinct playFailEnv defaultStrategies
    initState { id := 2 } rfl rfl (by decide) rfl rfl
  exact ⟨h.1, h.2.1, h.2.2.1⟩

/-- Claim C7: `release` is idempotent.  On any state whose streaming flag
can only be up with a stream attached (true of every state the component
reaches), one `stopCamera` leaves the system Idle, a second leaves it Idle
again, and on an absent handle the call is a no-op (the model is total:
no path raises an error). -/
theorem claim7_release_idempotent (s : CompState)
    (hwf : s.isStreaming = true → s.srcObject ≠ none) :
    (stopCamera s).Idle ∧
    (stopCamera (stopCamera s)).Idle ∧
    (s.srcObject = none → stopCamera s = s) := by
  cases h : s.srcObject with
  | none =>
    have hns : s.isStreaming = false := by
      cases hs : s.isStreaming
      · rfl
      · exact absurd h (hwf hs)
    simp [stopCamera, h, CompState.Idle, hns]
  | some st =>
    simp [stopCamera, h, CompState.Idle, stopTracks]

/-- Witness for C7 on the concrete streaming state. -/
theorem claim7_witness :
    (stopCamera streamingState).Idle ∧
    (stopCamera (stopCamera streamingState)).Idle ∧
    (streamingState.srcObject = none →
      stopCamera streamingState = streamingState) :=
  claim7_release_idempotent streamingState (by decide)

/-- Claim C8 (amended): for the empty strategy list with the capability
check passed, `acquire` classifies the synthesized no-devices error
through the normal table: `Failed(Unknown)` on a secure or local page,
but `Failed(InsecureContext)` on an insecure non-local page. -/
theorem claim8_empty_list_kind (env : Env) (s : CompState)
    (hm : env.mediaDevicesPresent = true)
    (hg : env.getUserMediaPresent = true) :
    ((env.protocol = "https:" ∨ env.hostname = "localhost") →
      (startCamera env [] s).outcome = .Failed .Unknown) ∧
    (env.protocol ≠ "https:" → env.hostname ≠ "localhost" →
      (startCamera env [] s).outcome = .Failed .InsecureContext) := by
  constructor
  · intro hs
    have hk : classify env noDevicesError = .Unknown := by
      unfold classify
      rw [if_neg (by decide), if_neg (by decide), if_neg (by decide),
          if_neg (by decide), if_neg (by rcases hs with hs | hs <;> simp [hs])]
    simp [startCamera, hm, hg, tryStrategies, hk]
  · intro h1 h2
    have hk : classify env noDevicesError = .InsecureContext := by
      unfold classify
      rw [if_neg (by decide), if_neg (by decide), if_neg (by decide),
          if_neg (by decide), if_pos ⟨h1, h2⟩]
    simp [startCamera, hm, hg, tryStrategies, hk]

/-- Counterexample to C8 as stated: with the camera API present but the
page served over plain HTTP from a non-local host, the empty strategy
list yields `Failed(InsecureContext)`, not `Failed(Unknown)`. -/
theorem claim8_counterexample :
    (startCamera insecureEnv [] initState).outcome = .Failed .InsecureContext ∧
    (startCamera insecureEnv [] initState).outcome ≠ .Failed .Unknown := by
  decide

/-- Witness for the amended C8 on the secure base environment. -/
theorem claim8_witness :
    (startCamera baseEnv [] initState).outcome = .Failed .Unknown :=
  (claim8_empty_list_kind baseEnv initState rfl rfl).1 (Or.inl rfl)

/-- Claim C9: a failing analysis call is caught inside
`captureAndAnalyze`: its message lands in the error state, nothing of the
camera stream changes (attachment, opened and stopped tracks, streaming
flag all untouched), and no result is delivered. -/
theorem claim9_analysis_failure_local (env : Env) (s : CompState)
    (msg : String)
    (hvid : env.videoPresent = true) (hcan : env.canvasPresent = true)
    (hctx : env.ctx2d = true)
    (hfail : errMessageOf env.analyze = some msg) :
    (captureAndAnalyze env s).state.error = some msg ∧
    (captureAndAnalyze env s).state.srcObject = s.srcObject ∧
    (captureAndAnalyze env s).state.stoppedIds = s.stoppedIds ∧
    (captureAndAnalyze env s).state.openedIds = s.openedIds ∧
    (captureAndAnalyze env s).state.isStreaming = s.isStreaming ∧
    (captureAndAnalyze env s).state.analyzing = false ∧
    (captureAndAnalyze env s).delivered = none := by
  cases ha : env.analyze with
  | ok text => rw [ha] at hfail; simp [errMessageOf] at hfail
  | errorThrown message =>
    rw [ha] at hfail
    simp [errMessageOf] at hfail
    subst hfail
    simp [captureAndAnalyze, hvid, hcan, hctx, ha]
  | nonErrorThrown =>
    rw [ha] at hfail
    simp [errMessageOf] at hfail
    subst hfail
    simp [captureAndAnalyze, hvid, hcan, hctx, ha]

/-- Witness for C9: a thrown analysis error on the streaming state leaves
stream 0 attached and live. -/
theorem claim9_witness :
    (captureAndAnalyze { baseEnv with analyze := .errorThrown "quota exceeded" }
        streamingState).state.error = some "quota exceeded" ∧
    (captureAndAnalyze { baseEnv with analyze := .errorThrown "quota exceeded" }
        streamingState).state.srcObject = streamingState.srcObject ∧
    (captureAndAnalyze { baseEnv with analyze := .errorThrown "quota exceeded" }
        streamingState).state.stoppedIds = streamingState.stoppedIds ∧
    (captureAndAnalyze { baseEnv with analyze := .errorThrown "quota exceeded" }
        streamingState).state.openedIds = streamingState.openedIds ∧
    (captureAndAnalyze { baseEnv with analyze := .errorThrown "quota exceeded" }
        streamingState).state.isStreaming = streamingState.isStreaming ∧
    (captureAndAnalyze { baseEnv with analyze := .errorThrown "quota exceeded" }
        streamingState).state.analyzing = false ∧
    (captureAndAnalyze { baseEnv with analyze := .errorThrown "quota exceeded" }
        streamingState).delivered = none :=
  claim9_analysis_failure_local _ _ _ rfl rfl rfl rfl

/-- Claim C10: with both refs attached, `captureAndAnalyze` writes `true`
to the analyzing flag at entry; the flag ends `false` precisely when a 2d
context is obtainable; without a context the entry write is the only
write, the flag stays up and the capture trigger is disabled — and no
other operation (`startCamera`, `stopCamera`) ever resets the flag. -/
theorem claim10_analyzing_stuck_without_ctx (env : Env) (s : CompState)
    (hvid : env.videoPresent = true) (hcan : env.canvasPresent = true) :
    (captureAndAnalyze env s).analyzingWrites.head? = some true ∧
    ((captureAndAnalyze env s).state.analyzing = false ↔ env.ctx2d = true) ∧
    (env.ctx2d = false →
      (captureAndAnalyze env s).analyzingWrites = [true] ∧
      (captureAndAnalyze env s).state.analyzing = true ∧
      captureDisabled (captureAndAnalyze env s).state = true) ∧
    (∀ env' strategies' s',
      (startCamera env' strategies' s').state.analyzing = s'.analyzing) ∧
    (∀ s', (stopCamera s').analyzing = s'.analyzing) := by
  refine ⟨?_, ?_, ?_, startCamera_analyzing, ?_⟩
  · cases hc : env.ctx2d with
    | false => simp [captureAndAnalyze, hvid, hcan, hc]
    | true => cases ha : env.analyze <;>
        simp [captureAndAnalyze, hvid, hcan, hc, ha]
  · cases hc : env.ctx2d with
    | false => simp [captureAndAnalyze, hvid, hcan, hc]
    | true => cases ha : env.analyze <;>
        simp [captureAndAnalyze, hvid, hcan, hc, ha]
  · intro hc
    simp [captureAndAnalyze, hvid, hcan, hc, captureDisabled]
  · intro s'
    cases h : s'.srcObject with
    | none => simp [stopCamera, h]
    | some st => simp [stopCamera, h]

/-- Witness for C10: without a 2d context the analyzing flag is stuck up
and the trigger disabled. -/
theorem claim10_witness :
    (captureAndAnalyze { baseEnv with ctx2d := false }
        streamingState).analyzingWrites = [true] ∧
    (captureAndAnalyze { baseEnv with ctx2d := false }
        streamingState).state.analyzing = true ∧
    captureDisabled (captureAndAnalyze { baseEnv with ctx2d := false }
        streamingState).state = true := by
  have h := claim10_analyzing_stuck_without_ctx
    { baseEnv with ctx2d := false } streamingState rfl rfl
  exact h.2.2.1 rfl

end CameraAI
